import Mathlib

/-
  Shallow embedding of the request-orchestration layer of src/website.js.

  The three coordinators (analyzeContent, summarizeContent, getMisinformationFact)
  are modelled as functions from a network environment to a list of state-write
  events; the React state hooks become an explicit AppState record and the
  setX(...) calls become events folded over that record.  The network is an
  environment function from the attempt index to the result of that fetch
  (promise rejection, or an HTTP response with a status and a decoded JSON
  body).  The host JSON.parse builtin is modelled by an executable JSON parser
  over the value type Json below.  setTimeout-driven retries become a sleep
  event followed by the recursive attempt, which matches the strictly
  sequential scheduling of the source (each retry is scheduled only after the
  previous attempt finished).  The scroll-into-view side effect and all
  rendering are outside the modelled state, as in the specification.
-/

inductive Json where
  | null
  | bool (b : Bool)
  | num (n : Int)
  | str (s : String)
  | arr (elems : List Json)
  | obj (fields : List (String × Json))

/-- Field lookup on a JSON object, first binding wins; any non-object
(including null, mirroring optional chaining stopping at null/undefined)
yields none. -/
def lookupField : List (String × Json) → String → Option Json
  | [], _ => none
  | (k, v) :: rest, key => if k = key then some v else lookupField rest key

def Json.getField : Json → String → Option Json
  | .obj fields, key => lookupField fields key
  | _, _ => none

def Json.getIndex : Json → Nat → Option Json
  | .arr xs, i => xs.get? i
  | _, _ => none

/-- skip JSON whitespace -/
def skipWs : List Char → List Char
  | [] => []
  | c :: cs => if c = ' ' || c = '\n' || c = '\t' || c = '\r' then skipWs cs else c :: cs

/-- read the characters of a JSON string literal up to the closing quote
(the concrete strings in this development use no escape sequences) -/
def takeStringChars : List Char → Option (List Char × List Char)
  | [] => none
  | c :: cs =>
    if c = '\x22' then some ([], cs)
    else
      match takeStringChars cs with
      | some (s, rest) => some (c :: s, rest)
      | none => none

def takeDigits : List Char → List Char × List Char
  | [] => ([], [])
  | c :: cs =>
    if c.isDigit then
      let p := takeDigits cs
      (c :: p.1, p.2)
    else ([], c :: cs)

def digitsToNat (ds : List Char) : Nat :=
  ds.foldl (fun acc c => acc * 10 + (c.toNat - 48)) 0

/-- match an expected literal suffix such as rue / alse / ull -/
def dropLit : List Char → List Char → Option (List Char)
  | [], cs => some cs
  | l :: ls, c :: cs => if c = l then dropLit ls cs else none
  | _ :: _, [] => none

mutual

def parseVal : Nat → List Char → Option (Json × List Char)
  | 0, _ => none
  | fuel + 1, cs =>
    match skipWs cs with
    | [] => none
    | c :: cs2 =>
      if c = '\x22' then
        match takeStringChars cs2 with
        | some (s, rest) => some (Json.str (String.mk s), rest)
        | none => none
      else if c = '\x7b' then parseFields fuel cs2
      else if c = '[' then parseElems fuel cs2
      else if c = 't' then
        match dropLit ['r', 'u', 'e'] cs2 with
        | some rest => some (Json.bool true, rest)
        | none => none
      else if c = 'f' then
        match dropLit ['a', 'l', 's', 'e'] cs2 with
        | some rest => some (Json.bool false, rest)
        | none => none
      else if c = 'n' then
        match dropLit ['u', 'l', 'l'] cs2 with
        | some rest => some (Json.null, rest)
        | none => none
      else if c = '-' then
        match takeDigits cs2 with
        | ([], _) => none
        | (ds, rest) => some (Json.num (-(digitsToNat ds : Int)), rest)
      else if c.isDigit then
        match takeDigits (c :: cs2) with
        | ([], _) => none
        | (ds, rest) => some (Json.num (digitsToNat ds), rest)
      else none

def parseElems : Nat → List Char → Option (Json × List Char)
  | 0, _ => none
  | fuel + 1, cs =>
    match skipWs cs with
    | ']' :: rest => some (Json.arr [], rest)
    | cs2 =>
      match parseVal fuel cs2 with
      | none => none
      | some (v, rest) =>
        match skipWs rest with
        | ',' :: rest2 =>
          match parseElems fuel rest2 with
          | some (Json.arr vs, rest3) => some (Json.arr (v :: vs), rest3)
          | _ => none
        | ']' :: rest2 => some (Json.arr [v], rest2)
        | _ => none

def parseFields : Nat → List Char → Option (Json × List Char)
  | 0, _ => none
  | fuel + 1, cs =>
    match skipWs cs with
    | '\x7d' :: rest => some (Json.obj [], rest)
    | '\x22' :: cs2 =>
      match takeStringChars cs2 with
      | none => none
      | some (k, rest) =>
        match skipWs rest with
        | ':' :: rest2 =>
          match parseVal fuel rest2 with
          | none => none
          | some (v, rest3) =>
            match skipWs rest3 with
            | ',' :: rest4 =>
              match parseFields fuel rest4 with
              | some (Json.obj fs, rest5) => some (Json.obj ((String.mk k, v) :: fs), rest5)
              | _ => none
            | '\x7d' :: rest4 => some (Json.obj [(String.mk k, v)], rest4)
            | _ => none
        | _ => none
    | _ => none

end

/-- the host JSON.parse builtin: none models a thrown SyntaxError -/
def Json.parse (s : String) : Option Json :=
  match parseVal (s.length + 1) s.data with
  | some (v, rest) =>
    match skipWs rest with
    | [] => some v
    | _ => none
  | none => none

/-- the optional chain result.candidates?.[0]?.content?.parts?.[0]?.text of the
source; per the wire contract the text field, when present, holds a string, so
the extraction returns that string and none when any link of the chain (or the
final string) is absent. -/
def extractText (body : Json) : Option String :=
  match (((((body.getField "candidates").bind (fun j => j.getIndex 0)).bind
      (fun j => j.getField "content")).bind (fun j => j.getField "parts")).bind
      (fun j => j.getIndex 0)).bind (fun j => j.getField "text") with
  | some (Json.str s) => some s
  | _ => none

/-- outcome of one fetch of the endpoint: the promise rejects (transport
failure) or resolves to a response with an HTTP status and decoded JSON body -/
inductive FetchResult where
  | reject
  | response (status : Nat) (body : Json)

/-- the network environment: result of the fetch made on attempt k -/
abbrev Env := Nat → FetchResult

/-- Response.ok of the fetch API: status in the 2xx range (200-299) -/
def responseOk (status : Nat) : Bool := 200 ≤ status && status < 300

/-- the attempt fails at the client layer: rejected fetch or non-2xx status -/
def clientFails : FetchResult → Bool
  | .reject => true
  | .response status _ => !(responseOk status)

/-- the React state hooks of the App component (lines 4-11 of the source);
summary and misinformationFact use Option String since setSummary /
setMisinformationFact may store the absent (undefined) extraction result -/
structure AppState where
  inputText : String
  results : Option Json
  loading : Bool
  error : Option String
  summary : Option String
  isSummarizing : Bool
  misinformationFact : Option String
  isGettingFact : Bool

/-- one state write or observable step of a coordinator run, in program order -/
inductive Ev where
  | fetchCall
  | sleep (ms : Nat)
  | setLoading (b : Bool)
  | setResults (v : Option Json)
  | setError (v : Option String)
  | setSummary (v : Option String)
  | setIsSummarizing (b : Bool)
  | setMisinformationFact (v : Option String)
  | setIsGettingFact (b : Bool)

def applyEv (s : AppState) : Ev → AppState
  | .fetchCall => s
  | .sleep _ => s
  | .setLoading b => { s with loading := b }
  | .setResults v => { s with results := v }
  | .setError v => { s with error := v }
  | .setSummary v => { s with summary := v }
  | .setIsSummarizing b => { s with isSummarizing := b }
  | .setMisinformationFact v => { s with misinformationFact := v }
  | .setIsGettingFact b => { s with isGettingFact := b }

def runEvents (s : AppState) (l : List Ev) : AppState := l.foldl applyEv s

/-- the initial hook values of the App component, with the text the user typed -/
def initState (input : String) : AppState :=
  { inputText := input, results := none, loading := false, error := none,
    summary := none, isSummarizing := false,
    misinformationFact := none, isGettingFact := false }

def dropWhileWs : List Char → List Char
  | [] => []
  | c :: cs => if c.isWhitespace then dropWhileWs cs else c :: cs

/-- the JS String.prototype.trim call of the precondition checks, as an
executable function on the character list -/
def jsTrim (s : String) : String :=
  String.mk ((dropWhileWs (dropWhileWs s.data).reverse).reverse)

/-- maxRetries = 3, declared identically in all three coordinators -/
def maxRetries : Nat := 3

/-- baseDelay = 1000, declared identically in all three coordinators -/
def baseDelay : Nat := 1000

/-- the backoff delay computed by the catch blocks after retryCount++ -/
def delay (attempt : Nat) : Nat := baseDelay * 2 ^ attempt

/-- The try block of analyzeContent.makeApiCall for attempt k: some parsed
result if it reaches setResults, none if any statement throws (rejected fetch,
non-ok status, falsy jsonText - absent or empty string - or JSON.parse error). -/
def analyzeAttemptResult (env : Env) (k : Nat) : Option Json :=
  match env k with
  | .reject => none
  | .response status body =>
    if !(responseOk status) then none
    else
      match extractText body with
      | none => none
      | some jsonText => if jsonText = "" then none else Json.parse jsonText

/-- The try block of summarizeContent.makeApiCall (and of
getMisinformationFact.makeApiCall, which is identical) for attempt k: none if
fetch rejects or status is non-ok (throw), otherwise the success carries the
possibly-absent extracted text, which is stored without any check. -/
def plainAttemptResult (env : Env) (k : Nat) : Option (Option String) :=
  match env k with
  | .reject => none
  | .response status body =>
    if !(responseOk status) then none
    else some (extractText body)

/-- makeApiCall of analyzeContent.  retryCount is the pre-increment counter of
the source, so the retry delay is baseDelay * 2 ^ (retryCount + 1), matching
the source computing the delay after retryCount++.  In the retry branch the
finally clause (setLoading false) runs before the setTimeout delay elapses.
The fuel argument only realises structural recursion; the entry call passes
maxRetries + 1, which the guard retryCount < maxRetries never exhausts. -/
def analyzeMakeApiCall (env : Env) : Nat → Nat → List Ev
  | 0, _ => []
  | fuel + 1, retryCount =>
    Ev.fetchCall ::
      match analyzeAttemptResult env retryCount with
      | some parsedResult => [Ev.setResults (some parsedResult), Ev.setLoading false]
      | none =>
        if retryCount < maxRetries then
          Ev.setLoading false :: Ev.sleep (baseDelay * 2 ^ (retryCount + 1)) ::
            analyzeMakeApiCall env fuel (retryCount + 1)
        else
          [Ev.setError (some "Failed to get a response. Please try again."),
           Ev.setLoading false]

/-- the body of analyzeContent as the ordered list of its state writes -/
def analyzeEvents (env : Env) (inputText : String) : List Ev :=
  if jsTrim inputText = "" then
    [Ev.setError (some "Please enter some text to analyze.")]
  else
    Ev.setLoading true :: Ev.setResults none :: Ev.setError none ::
      analyzeMakeApiCall env (maxRetries + 1) 0

def analyzeContent (env : Env) (s : AppState) : AppState :=
  runEvents s (analyzeEvents env s.inputText)

/-- makeApiCall of summarizeContent; structure identical to the analyze loop,
but the success path stores the extracted text unchecked. -/
def summarizeMakeApiCall (env : Env) : Nat → Nat → List Ev
  | 0, _ => []
  | fuel + 1, retryCount =>
    Ev.fetchCall ::
      match plainAttemptResult env retryCount with
      | some summaryText => [Ev.setSummary summaryText, Ev.setIsSummarizing false]
      | none =>
        if retryCount < maxRetries then
          Ev.setIsSummarizing false :: Ev.sleep (baseDelay * 2 ^ (retryCount + 1)) ::
            summarizeMakeApiCall env fuel (retryCount + 1)
        else
          [Ev.setError (some "Failed to get a summary. Please try again."),
           Ev.setIsSummarizing false]

/-- the body of summarizeContent: note it clears summary but, unlike
analyzeContent, does not clear error at invocation (source lines 106-107). -/
def summarizeEvents (env : Env) (inputText : String) : List Ev :=
  if jsTrim inputText = "" then
    [Ev.setError (some "Please enter some text to summarize.")]
  else
    Ev.setIsSummarizing true :: Ev.setSummary none ::
      summarizeMakeApiCall env (maxRetries + 1) 0

def summarizeContent (env : Env) (s : AppState) : AppState :=
  runEvents s (summarizeEvents env s.inputText)

/-- makeApiCall of getMisinformationFact -/
def factMakeApiCall (env : Env) : Nat → Nat → List Ev
  | 0, _ => []
  | fuel + 1, retryCount =>
    Ev.fetchCall ::
      match plainAttemptResult env retryCount with
      | some factText => [Ev.setMisinformationFact factText, Ev.setIsGettingFact false]
      | none =>
        if retryCount < maxRetries then
          Ev.setIsGettingFact false :: Ev.sleep (baseDelay * 2 ^ (retryCount + 1)) ::
            factMakeApiCall env fuel (retryCount + 1)
        else
          [Ev.setError (some "Failed to get a fact. Please try again."),
           Ev.setIsGettingFact false]

/-- the body of getMisinformationFact: no input precondition, clears the fact
and the (shared) error slot, then runs the retry loop -/
def factEvents (env : Env) : List Ev :=
  Ev.setIsGettingFact true :: Ev.setMisinformationFact none :: Ev.setError none ::
    factMakeApiCall env (maxRetries + 1) 0

def getMisinformationFact (env : Env) (s : AppState) : AppState :=
  runEvents s (factEvents env)

/-- number of network calls recorded in a trace -/
def countFetches : List Ev → Nat
  | [] => 0
  | Ev.fetchCall :: rest => countFetches rest + 1
  | _ :: rest => countFetches rest

/-- the backoff waits recorded in a trace, in order -/
def sleepsOf : List Ev → List Nat
  | [] => []
  | Ev.sleep d :: rest => d :: sleepsOf rest
  | _ :: rest => sleepsOf rest

/-- a 2xx response wrapping text t at candidates[0].content.parts[0].text -/
def wireBody (t : String) : Json :=
  Json.obj [("candidates", Json.arr [Json.obj [("content",
    Json.obj [("parts", Json.arr [Json.obj [("text", Json.str t)]])])]])]

/-- the environment in which every fetch rejects -/
def envReject : Env := fun _ => FetchResult.reject

/-- the environment in which every attempt gets HTTP 500 -/
def env500 : Env := fun _ => FetchResult.response 500 Json.null

/-- every attempt succeeds with plain text hi at the wire path -/
def envOkHi : Env := fun _ => FetchResult.response 200 (wireBody "hi")

/-- every attempt is a 2xx response whose body lacks the text path entirely -/
def envNoText : Env := fun _ => FetchResult.response 200 (Json.obj [])

/-- the wrong-typed structured body of the schema-rejection scenario -/
def cHigh : String := "\x7b\"credibilityScore\":\"high\",\"breakdown\":\"wrong type\"\x7d"

/-- every attempt is 2xx carrying cHigh as the structured text payload -/
def envCHigh : Env := fun _ => FetchResult.response 200 (wireBody cHigh)

/-- a well-typed structured body -/
def cGood : String := "\x7b\"credibilityScore\": 15, \"breakdown\": \"ok\"\x7d"

/-- every attempt is 2xx carrying cGood as the structured text payload -/
def envGood : Env := fun _ => FetchResult.response 200 (wireBody cGood)

/-- first attempt rejects at the transport, every later attempt succeeds -/
def envRejectThenOk : Env :=
  fun k => if k = 0 then FetchResult.reject else FetchResult.response 200 (wireBody "hi")

/-- the event prefix of the fact coordinator under envRejectThenOk up to the
moment the first backoff wait has been scheduled: the finally clause has
already cleared the busy flag although attempt 2 is still pending -/
def busyDropTrace : List Ev :=
  [Ev.setIsGettingFact true, Ev.setMisinformationFact none, Ev.setError none,
   Ev.fetchCall, Ev.setIsGettingFact false, Ev.sleep 2000]

/-- the events the pending retry still performs after busyDropTrace -/
def pendingRetryTail : List Ev :=
  [Ev.setMisinformationFact (some "hi"), Ev.setIsGettingFact false]

lemma analyzeAttemptResult_of_clientFail (env : Env) (k : Nat)
    (h : clientFails (env k) = true) : analyzeAttemptResult env k = none := by
  unfold analyzeAttemptResult
  cases henv : env k with
  | reject => rfl
  | response status body =>
    unfold clientFails at h
    rw [henv] at h
    simp only [Bool.not_eq_true'] at h
    simp [h]

lemma plainAttemptResult_of_clientFail (env : Env) (k : Nat)
    (h : clientFails (env k) = true) : plainAttemptResult env k = none := by
  unfold plainAttemptResult
  cases henv : env k with
  | reject => rfl
  | response status body =>
    unfold clientFails at h
    rw [henv] at h
    simp only [Bool.not_eq_true'] at h
    simp [h]

lemma analyzeMakeApiCall_congr (env env2 : Env)
    (h : ∀ k, analyzeAttemptResult env k = analyzeAttemptResult env2 k) :
    ∀ fuel rc, analyzeMakeApiCall env fuel rc = analyzeMakeApiCall env2 fuel rc := by
  intro fuel
  induction fuel with
  | zero => intro rc; rfl
  | succ n ih =>
    intro rc
    simp only [analyzeMakeApiCall, h rc, ih (rc + 1)]

lemma summarizeMakeApiCall_congr (env env2 : Env)
    (h : ∀ k, plainAttemptResult env k = plainAttemptResult env2 k) :
    ∀ fuel rc, summarizeMakeApiCall env fuel rc = summarizeMakeApiCall env2 fuel rc := by
  intro fuel
  induction fuel with
  | zero => intro rc; rfl
  | succ n ih =>
    intro rc
    simp only [summarizeMakeApiCall, h rc, ih (rc + 1)]

lemma factMakeApiCall_congr (env env2 : Env)
    (h : ∀ k, plainAttemptResult env k = plainAttemptResult env2 k) :
    ∀ fuel rc, factMakeApiCall env fuel rc = factMakeApiCall env2 fuel rc := by
  intro fuel
  induction fuel with
  | zero => intro rc; rfl
  | succ n ih =>
    intro rc
    simp only [factMakeApiCall, h rc, ih (rc + 1)]

lemma analyzeEvents_eq_reject (env : Env) (input : String)
    (hfail : ∀ k, clientFails (env k) = true) :
    analyzeEvents env input = analyzeEvents envReject input := by
  unfold analyzeEvents
  rw [analyzeMakeApiCall_congr env envReject
    (fun k => by rw [analyzeAttemptResult_of_clientFail env k (hfail k)]; rfl)]

lemma summarizeEvents_eq_reject (env : Env) (input : String)
    (hfail : ∀ k, clientFails (env k) = true) :
    summarizeEvents env input = summarizeEvents envReject input := by
  unfold summarizeEvents
  rw [summarizeMakeApiCall_congr env envReject
    (fun k => by rw [plainAttemptResult_of_clientFail env k (hfail k)]; rfl)]

lemma factEvents_eq_reject (env : Env)
    (hfail : ∀ k, clientFails (env k) = true) :
    factEvents env = factEvents envReject := by
  unfold factEvents
  rw [factMakeApiCall_congr env envReject
    (fun k => by rw [plainAttemptResult_of_clientFail env k (hfail k)]; rfl)]

lemma factMakeApiCall_frame (env : Env) :
    ∀ fuel rc s, ((runEvents s (factMakeApiCall env fuel rc)).inputText = s.inputText ∧
      (runEvents s (factMakeApiCall env fuel rc)).results = s.results ∧
      (runEvents s (factMakeApiCall env fuel rc)).loading = s.loading ∧
      (runEvents s (factMakeApiCall env fuel rc)).summary = s.summary ∧
      (runEvents s (factMakeApiCall env fuel rc)).isSummarizing = s.isSummarizing) := by
  intro fuel
  induction fuel with
  | zero => intro rc s; simp [factMakeApiCall, runEvents]
  | succ n ih =>
    intro rc s
    simp only [factMakeApiCall]
    cases hk : plainAttemptResult env rc with
    | some t => simp [runEvents, applyEv]
    | none =>
      by_cases hlt : rc < maxRetries
      · simp only [if_pos hlt]
        simp only [runEvents, List.foldl_cons] at ih ⊢
        simpa [applyEv] using ih (rc + 1) { s with isGettingFact := false }
      · simp [if_neg hlt, runEvents, applyEv]

lemma summarizeMakeApiCall_frame (env : Env) :
    ∀ fuel rc s, ((runEvents s (summarizeMakeApiCall env fuel rc)).inputText = s.inputText ∧
      (runEvents s (summarizeMakeApiCall env fuel rc)).results = s.results ∧
      (runEvents s (summarizeMakeApiCall env fuel rc)).loading = s.loading ∧
      (runEvents s (summarizeMakeApiCall env fuel rc)).misinformationFact = s.misinformationFact ∧
      (runEvents s (summarizeMakeApiCall env fuel rc)).isGettingFact = s.isGettingFact) := by
  intro fuel
  induction fuel with
  | zero => intro rc s; simp [summarizeMakeApiCall, runEvents]
  | succ n ih =>
    intro rc s
    simp only [summarizeMakeApiCall]
    cases hk : plainAttemptResult env rc with
    | some t => simp [runEvents, applyEv]
    | none =>
      by_cases hlt : rc < maxRetries
      · simp only [if_pos hlt]
        simp only [runEvents, List.foldl_cons] at ih ⊢
        simpa [applyEv] using ih (rc + 1) { s with isSummarizing := false }
      · simp [if_neg hlt, runEvents, applyEv]

lemma analyzeMakeApiCall_frame (env : Env) :
    ∀ fuel rc s, ((runEvents s (analyzeMakeApiCall env fuel rc)).inputText = s.inputText ∧
      (runEvents s (analyzeMakeApiCall env fuel rc)).summary = s.summary ∧
      (runEvents s (analyzeMakeApiCall env fuel rc)).isSummarizing = s.isSummarizing ∧
      (runEvents s (analyzeMakeApiCall env fuel rc)).misinformationFact = s.misinformationFact ∧
      (runEvents s (analyzeMakeApiCall env fuel rc)).isGettingFact = s.isGettingFact) := by
  intro fuel
  induction fuel with
  | zero => intro rc s; simp [analyzeMakeApiCall, runEvents]
  | succ n ih =>
    intro rc s
    simp only [analyzeMakeApiCall]
    cases hk : analyzeAttemptResult env rc with
    | some v => simp [runEvents, applyEv]
    | none =>
      by_cases hlt : rc < maxRetries
      · simp only [if_pos hlt]
        simp only [runEvents, List.foldl_cons] at ih ⊢
        simpa [applyEv] using ih (rc + 1) { s with loading := false }
      · simp [if_neg hlt, runEvents, applyEv]

lemma analyzeMakeApiCall_excl (env : Env) :
    ∀ fuel rc s, s.results = none → s.error = none →
      (runEvents s (analyzeMakeApiCall env fuel rc)).results = none ∨
      (runEvents s (analyzeMakeApiCall env fuel rc)).error = none := by
  intro fuel
  induction fuel with
  | zero => intro rc s h1 h2; left; simpa [analyzeMakeApiCall, runEvents] using h1
  | succ n ih =>
    intro rc s h1 h2
    simp only [analyzeMakeApiCall]
    cases hk : analyzeAttemptResult env rc with
    | some v => right; simpa [runEvents, applyEv] using h2
    | none =>
      by_cases hlt : rc < maxRetries
      · simp only [if_pos hlt]
        simp only [runEvents, List.foldl_cons] at ih ⊢
        exact ih (rc + 1) { s with loading := false } h1 h2
      · left; simpa [if_neg hlt, runEvents, applyEv] using h1

lemma summarizeMakeApiCall_excl (env : Env) :
    ∀ fuel rc s, s.summary = none → s.error = none →
      (runEvents s (summarizeMakeApiCall env fuel rc)).summary = none ∨
      (runEvents s (summarizeMakeApiCall env fuel rc)).error = none := by
  intro fuel
  induction fuel with
  | zero => intro rc s h1 h2; left; simpa [summarizeMakeApiCall, runEvents] using h1
  | succ n ih =>
    intro rc s h1 h2
    simp only [summarizeMakeApiCall]
    cases hk : plainAttemptResult env rc with
    | some t => right; simpa [runEvents, applyEv] using h2
    | none =>
      by_cases hlt : rc < maxRetries
      · simp only [if_pos hlt]
        simp only [runEvents, List.foldl_cons] at ih ⊢
        exact ih (rc + 1) { s with isSummarizing := false } h1 h2
      · left; simpa [if_neg hlt, runEvents, applyEv] using h1

lemma factMakeApiCall_excl (env : Env) :
    ∀ fuel rc s, s.misinformationFact = none → s.error = none →
      (runEvents s (factMakeApiCall env fuel rc)).misinformationFact = none ∨
      (runEvents s (factMakeApiCall env fuel rc)).error = none := by
  intro fuel
  induction fuel with
  | zero => intro rc s h1 h2; left; simpa [factMakeApiCall, runEvents] using h1
  | succ n ih =>
    intro rc s h1 h2
    simp only [factMakeApiCall]
    cases hk : plainAttemptResult env rc with
    | some t => right; simpa [runEvents, applyEv] using h2
    | none =>
      by_cases hlt : rc < maxRetries
      · simp only [if_pos hlt]
        simp only [runEvents, List.foldl_cons] at ih ⊢
        exact ih (rc + 1) { s with isGettingFact := false } h1 h2
      · left; simpa [if_neg hlt, runEvents, applyEv] using h1

@[simp] lemma countFetches_nil : countFetches [] = 0 := rfl

@[simp] lemma countFetches_fetch (l : List Ev) :
    countFetches (Ev.fetchCall :: l) = countFetches l + 1 := rfl

@[simp] lemma countFetches_sleep (d : Nat) (l : List Ev) :
    countFetches (Ev.sleep d :: l) = countFetches l := rfl

@[simp] lemma countFetches_setLoading (b : Bool) (l : List Ev) :
    countFetches (Ev.setLoading b :: l) = countFetches l := rfl

@[simp] lemma countFetches_setResults (v : Option Json) (l : List Ev) :
    countFetches (Ev.setResults v :: l) = countFetches l := rfl

@[simp] lemma countFetches_setError (v : Option String) (l : List Ev) :
    countFetches (Ev.setError v :: l) = countFetches l := rfl

@[simp] lemma countFetches_setSummary (v : Option String) (l : List Ev) :
    countFetches (Ev.setSummary v :: l) = countFetches l := rfl

@[simp] lemma countFetches_setIsSummarizing (b : Bool) (l : List Ev) :
    countFetches (Ev.setIsSummarizing b :: l) = countFetches l := rfl

@[simp] lemma countFetches_setMisinformationFact (v : Option String) (l : List Ev) :
    countFetches (Ev.setMisinformationFact v :: l) = countFetches l := rfl

@[simp] lemma countFetches_setIsGettingFact (b : Bool) (l : List Ev) :
    countFetches (Ev.setIsGettingFact b :: l) = countFetches l := rfl

@[simp] lemma sleepsOf_nil : sleepsOf [] = [] := rfl

@[simp] lemma sleepsOf_fetch (l : List Ev) :
    sleepsOf (Ev.fetchCall :: l) = sleepsOf l := rfl

@[simp] lemma sleepsOf_sleep (d : Nat) (l : List Ev) :
    sleepsOf (Ev.sleep d :: l) = d :: sleepsOf l := rfl

@[simp] lemma sleepsOf_setLoading (b : Bool) (l : List Ev) :
    sleepsOf (Ev.setLoading b :: l) = sleepsOf l := rfl

@[simp] lemma sleepsOf_setResults (v : Option Json) (l : List Ev) :
    sleepsOf (Ev.setResults v :: l) = sleepsOf l := rfl

@[simp] lemma sleepsOf_setError (v : Option String) (l : List Ev) :
    sleepsOf (Ev.setError v :: l) = sleepsOf l := rfl

@[simp] lemma sleepsOf_setSummary (v : Option String) (l : List Ev) :
    sleepsOf (Ev.setSummary v :: l) = sleepsOf l := rfl

@[simp] lemma sleepsOf_setIsSummarizing (b : Bool) (l : List Ev) :
    sleepsOf (Ev.setIsSummarizing b :: l) = sleepsOf l := rfl

@[simp] lemma sleepsOf_setMisinformationFact (v : Option String) (l : List Ev) :
    sleepsOf (Ev.setMisinformationFact v :: l) = sleepsOf l := rfl

@[simp] lemma sleepsOf_setIsGettingFact (b : Bool) (l : List Ev) :
    sleepsOf (Ev.setIsGettingFact b :: l) = sleepsOf l := rfl

lemma countFetches_analyzeMakeApiCall_pos (env : Env) (fuel rc : Nat) :
    1 ≤ countFetches (analyzeMakeApiCall env (fuel + 1) rc) := by
  simp only [analyzeMakeApiCall, countFetches_fetch]
  omega

/-- Structure of the backoff waits of the analyze retry chain: starting from a
pre-increment retryCount rc, the i-th recorded wait is delay (rc + 1 + i), one
wait per retried attempt. -/
lemma sleepsOf_analyzeMakeApiCall (env : Env) :
    ∀ fuel rc, maxRetries + 1 ≤ fuel + rc →
      sleepsOf (analyzeMakeApiCall env fuel rc) =
        (List.range (countFetches (analyzeMakeApiCall env fuel rc) - 1)).map
          (fun i => delay (rc + 1 + i)) := by
  intro fuel
  induction fuel with
  | zero =>
    intro rc h
    simp [analyzeMakeApiCall]
  | succ n ih =>
    intro rc h
    simp only [analyzeMakeApiCall]
    cases hk : analyzeAttemptResult env rc with
    | some v => simp
    | none =>
      by_cases hlt : rc < maxRetries
      · simp only [if_pos hlt]
        obtain ⟨m, rfl⟩ : ∃ m, n = m + 1 := by
          refine ⟨n - 1, ?_⟩
          unfold maxRetries at h hlt
          omega
        have hpos := countFetches_analyzeMakeApiCall_pos env m (rc + 1)
        have hrec := ih (rc + 1) (by omega)
        simp only [sleepsOf_fetch, sleepsOf_setLoading, sleepsOf_sleep,
          countFetches_fetch, countFetches_setLoading, countFetches_sleep,
          Nat.add_sub_cancel]
        rw [hrec]
        rw [show countFetches (analyzeMakeApiCall env (m + 1) (rc + 1))
            = countFetches (analyzeMakeApiCall env (m + 1) (rc + 1)) - 1 + 1 from by omega]
        rw [List.range_succ_eq_map, List.map_cons, List.map_map]
        refine List.cons_eq_cons.mpr ⟨by simp [delay], ?_⟩
        apply List.map_congr_left
        intro i _
        have hi : rc + 1 + 1 + i = rc + 1 + (i + 1) := by omega
        simp only [Function.comp_apply, hi]
      · simp [if_neg hlt]

lemma countFetches_factMakeApiCall_pos (env : Env) (fuel rc : Nat) :
    1 ≤ countFetches (factMakeApiCall env (fuel + 1) rc) := by
  simp only [factMakeApiCall, countFetches_fetch]
  omega

lemma analyzeMakeApiCall_success (env : Env) (fuel rc : Nat) (v : Json)
    (h : analyzeAttemptResult env rc = some v) :
    analyzeMakeApiCall env (fuel + 1) rc =
      [Ev.fetchCall, Ev.setResults (some v), Ev.setLoading false] := by
  simp only [analyzeMakeApiCall, h]

lemma summarizeMakeApiCall_success (env : Env) (fuel rc : Nat) (t : Option String)
    (h : plainAttemptResult env rc = some t) :
    summarizeMakeApiCall env (fuel + 1) rc =
      [Ev.fetchCall, Ev.setSummary t, Ev.setIsSummarizing false] := by
  simp only [summarizeMakeApiCall, h]

lemma factMakeApiCall_success (env : Env) (fuel rc : Nat) (t : Option String)
    (h : plainAttemptResult env rc = some t) :
    factMakeApiCall env (fuel + 1) rc =
      [Ev.fetchCall, Ev.setMisinformationFact t, Ev.setIsGettingFact false] := by
  simp only [factMakeApiCall, h]

/-- Whatever makes the first attempt of the analyze chain throw - transport
rejection, non-ok status, absent or empty text, or a JSON.parse failure - the
whole trace is the one a transport failure at that attempt would give. -/
lemma analyzeEvents_firstThrow (env : Env) (input : String)
    (h : analyzeAttemptResult env 0 = none) :
    analyzeEvents env input =
      analyzeEvents (fun k => if k = 0 then FetchResult.reject else env k) input := by
  unfold analyzeEvents
  rw [analyzeMakeApiCall_congr env (fun k => if k = 0 then FetchResult.reject else env k)
    (fun k => by
      cases k with
      | zero => rw [h]; rfl
      | succ n => rfl)]

/-- C9: for blank or whitespace-only input, the analyze and summarize
coordinators set their fixed validation message and issue zero network calls;
the fact coordinator has no input precondition and always reaches the network. -/
theorem C9_validation (env : Env) (s : AppState)
    (hblank : jsTrim s.inputText = "") :
    countFetches (analyzeEvents env s.inputText) = 0 ∧
    (analyzeContent env s).error = some "Please enter some text to analyze." ∧
    countFetches (summarizeEvents env s.inputText) = 0 ∧
    (summarizeContent env s).error = some "Please enter some text to summarize." ∧
    1 ≤ countFetches (factEvents env) := by
  unfold analyzeContent summarizeContent analyzeEvents summarizeEvents
  simp only [if_pos hblank]
  refine ⟨rfl, rfl, rfl, rfl, ?_⟩
  unfold factEvents
  simp only [countFetches_setIsGettingFact, countFetches_setMisinformationFact,
    countFetches_setError]
  exact countFetches_factMakeApiCall_pos env maxRetries 0

/-- C9 witness: whitespace-only input, an environment that would answer 500 -/
theorem C9_validation_witness :
    countFetches (analyzeEvents env500 "   ") = 0 ∧
    (analyzeContent env500 (initState "   ")).error =
      some "Please enter some text to analyze." ∧
    countFetches (summarizeEvents env500 "   ") = 0 ∧
    (summarizeContent env500 (initState "   ")).error =
      some "Please enter some text to summarize." ∧
    1 ≤ countFetches (factEvents env500) :=
  C9_validation env500 (initState "   ") rfl

/-- C10: when analyze or summarize rejects blank input, the only state slot
written is the error slot - the resulting state is the prior state with just
the validation message stored, so the busy flag and the prior result survive. -/
theorem C10_validation_frame (env : Env) (s : AppState)
    (hblank : jsTrim s.inputText = "") :
    analyzeContent env s = { s with error := some "Please enter some text to analyze." } ∧
    summarizeContent env s = { s with error := some "Please enter some text to summarize." } := by
  unfold analyzeContent summarizeContent analyzeEvents summarizeEvents
  simp only [if_pos hblank]
  exact ⟨rfl, rfl⟩

/-- C10 witness: a whitespace-only invocation on a state holding an earlier
result keeps that result and the false busy flag, writing only the error -/
theorem C10_validation_frame_witness :
    analyzeContent env500 { initState "   " with results := some (Json.str "old") } =
      { { initState "   " with results := some (Json.str "old") } with
          error := some "Please enter some text to analyze." } ∧
    summarizeContent env500 { initState "   " with results := some (Json.str "old") } =
      { { initState "   " with results := some (Json.str "old") } with
          error := some "Please enter some text to summarize." } :=
  C10_validation_frame env500 { initState "   " with results := some (Json.str "old") } rfl

/-- C2: when every attempt fails at the client layer, each coordinator makes
exactly 4 attempts (1 initial + 3 retries) and ends with its action-specific
error message, a null result and a cleared busy flag. -/
theorem C2_retry_bound (env : Env) (s : AppState)
    (hfail : ∀ k, clientFails (env k) = true)
    (hin : jsTrim s.inputText ≠ "") :
    countFetches (analyzeEvents env s.inputText) = 4 ∧
    (analyzeContent env s).error = some "Failed to get a response. Please try again." ∧
    (analyzeContent env s).results = none ∧
    (analyzeContent env s).loading = false ∧
    countFetches (summarizeEvents env s.inputText) = 4 ∧
    (summarizeContent env s).error = some "Failed to get a summary. Please try again." ∧
    (summarizeContent env s).summary = none ∧
    (summarizeContent env s).isSummarizing = false ∧
    countFetches (factEvents env) = 4 ∧
    (getMisinformationFact env s).error = some "Failed to get a fact. Please try again." ∧
    (getMisinformationFact env s).misinformationFact = none ∧
    (getMisinformationFact env s).isGettingFact = false := by
  unfold analyzeContent summarizeContent getMisinformationFact
  rw [analyzeEvents_eq_reject env s.inputText hfail,
    summarizeEvents_eq_reject env s.inputText hfail, factEvents_eq_reject env hfail]
  unfold analyzeEvents summarizeEvents
  simp only [if_neg hin]
  exact ⟨rfl, rfl, rfl, rfl, rfl, rfl, rfl, rfl, rfl, rfl, rfl, rfl⟩

/-- C2 witness: the end-to-end scenario of the specification - four
consecutive HTTP 500 responses -/
theorem C2_retry_bound_witness :
    countFetches (analyzeEvents env500 "Check this claim") = 4 ∧
    (analyzeContent env500 (initState "Check this claim")).error =
      some "Failed to get a response. Please try again." ∧
    (analyzeContent env500 (initState "Check this claim")).results = none ∧
    (analyzeContent env500 (initState "Check this claim")).loading = false ∧
    countFetches (summarizeEvents env500 "Check this claim") = 4 ∧
    (summarizeContent env500 (initState "Check this claim")).error =
      some "Failed to get a summary. Please try again." ∧
    (summarizeContent env500 (initState "Check this claim")).summary = none ∧
    (summarizeContent env500 (initState "Check this claim")).isSummarizing = false ∧
    countFetches (factEvents env500) = 4 ∧
    (getMisinformationFact env500 (initState "Check this claim")).error =
      some "Failed to get a fact. Please try again." ∧
    (getMisinformationFact env500 (initState "Check this claim")).misinformationFact = none ∧
    (getMisinformationFact env500 (initState "Check this claim")).isGettingFact = false :=
  C2_retry_bound env500 (initState "Check this claim") (fun _ => rfl) (by decide)

/-- C3: the busy flag does not stay true until the terminal outcome: under
envRejectThenOk the fact coordinator trace reaches busyDropTrace - whose fold
already has isGettingFact = false because the finally clause of the first
attempt ran - while a further fetch (the scheduled retry, which then succeeds)
is still to come. -/
theorem C3_busy_cleared_while_retry_pending :
    factEvents envRejectThenOk = busyDropTrace ++ Ev.fetchCall :: pendingRetryTail ∧
    (runEvents (initState "") busyDropTrace).isGettingFact = false ∧
    (runEvents (initState "") (factEvents envRejectThenOk)).misinformationFact = some "hi" :=
  ⟨rfl, rfl, rfl⟩

/-- C1 counterexample: a first attempt that is 2xx but malformed (no text
field) is not returned immediately - the analyze chain retries it with the
full backoff schedule, making 4 attempts and ending in the generic retry
exhaustion message. -/
theorem C1_counterexample :
    countFetches (analyzeEvents envNoText "claim text") = 4 ∧
    sleepsOf (analyzeEvents envNoText "claim text") = [2000, 4000, 8000] ∧
    (analyzeContent envNoText (initState "claim text")).error =
      some "Failed to get a response. Please try again." :=
  ⟨rfl, rfl, rfl⟩

/-- C1 (amended): an interpretation failure on the first attempt (text field
absent or unparsable) is caught by the same handler as transport and HTTP
failures: the whole operation behaves exactly as if the first attempt had been
a transport failure, and in particular (for non-blank input) the first attempt
is followed by the busy-flag write and a 2000 ms backoff wait before the
retry chain continues. -/
theorem C1_interp_failure_retried (env : Env) (input : String)
    (hthrow : analyzeAttemptResult env 0 = none) :
    analyzeEvents env input =
      analyzeEvents (fun k => if k = 0 then FetchResult.reject else env k) input ∧
    (jsTrim input ≠ "" →
      analyzeEvents env input =
        Ev.setLoading true :: Ev.setResults none :: Ev.setError none :: Ev.fetchCall ::
          Ev.setLoading false :: Ev.sleep 2000 :: analyzeMakeApiCall env maxRetries 1) := by
  refine ⟨analyzeEvents_firstThrow env input hthrow, fun hin => ?_⟩
  unfold analyzeEvents
  rw [if_neg hin]
  simp only [analyzeMakeApiCall, hthrow]
  norm_num [maxRetries, baseDelay]

/-- C1 witness: a malformed 2xx first response, concretely retried -/
theorem C1_interp_failure_retried_witness :
    analyzeEvents envNoText "claim words" =
      analyzeEvents (fun k => if k = 0 then FetchResult.reject else envNoText k) "claim words" ∧
    (jsTrim "claim words" ≠ "" →
      analyzeEvents envNoText "claim words" =
        Ev.setLoading true :: Ev.setResults none :: Ev.setError none :: Ev.fetchCall ::
          Ev.setLoading false :: Ev.sleep 2000 :: analyzeMakeApiCall envNoText maxRetries 1) :=
  C1_interp_failure_retried envNoText "claim words" rfl

/-- C6 counterexample: the wrong-typed structured body (credibilityScore is
the string high) is not rejected as SchemaMismatch - the analyze coordinator
stores the parsed object as its result on the first attempt, with no error and
no retry. -/
theorem C6_counterexample :
    (analyzeContent envCHigh (initState "check")).results =
      some (Json.obj [("credibilityScore", Json.str "high"),
                      ("breakdown", Json.str "wrong type")]) ∧
    (analyzeContent envCHigh (initState "check")).error = none ∧
    countFetches (analyzeEvents envCHigh "check") = 1 :=
  ⟨rfl, rfl, rfl⟩

/-- C6 (amended): the analyze interpreter applies no schema validation: any
text of a 2xx first response that JSON-parses is stored as the result as-is
(wrong-typed or missing fields included), ending the chain in one attempt with
no error; an unparsable text is not surfaced as SchemaMismatch but retried
exactly as a transport failure would be. -/
theorem C6_no_schema_validation (env : Env) (s : AppState) (status : Nat)
    (body : Json) (t : String)
    (hin : jsTrim s.inputText ≠ "") (h0 : env 0 = FetchResult.response status body)
    (hok : responseOk status = true) (htext : extractText body = some t)
    (hne : t ≠ "") :
    (∀ v, Json.parse t = some v →
      (analyzeContent env s).results = some v ∧
      (analyzeContent env s).error = none ∧
      countFetches (analyzeEvents env s.inputText) = 1) ∧
    (Json.parse t = none →
      analyzeEvents env s.inputText =
        analyzeEvents (fun k => if k = 0 then FetchResult.reject else env k) s.inputText) := by
  constructor
  · intro v hv
    have hatt : analyzeAttemptResult env 0 = some v := by
      unfold analyzeAttemptResult
      rw [h0]
      simp [hok, htext, hne, hv]
    unfold analyzeContent analyzeEvents
    rw [if_neg hin, analyzeMakeApiCall_success env maxRetries 0 v hatt]
    exact ⟨rfl, rfl, rfl⟩
  · intro hv
    apply analyzeEvents_firstThrow
    unfold analyzeAttemptResult
    rw [h0]
    simp [hok, htext, hne, hv]

/-- C6 witness: a well-typed structured body, stored verbatim after one call -/
theorem C6_no_schema_validation_witness :
    (analyzeContent envGood (initState "check")).results =
      some (Json.obj [("credibilityScore", Json.num 15), ("breakdown", Json.str "ok")]) :=
  ((C6_no_schema_validation envGood (initState "check") 200 (wireBody cGood) cGood
      (by decide) rfl rfl rfl (by decide)).1
    (Json.obj [("credibilityScore", Json.num 15), ("breakdown", Json.str "ok")]) rfl).1

/-- C7 counterexample: a 2xx response whose body lacks the text path does not
produce a MalformedResponse error: summarize and fact treat it as a success,
store the absent value in the result slot, raise no error and make no retry. -/
theorem C7_counterexample :
    (summarizeContent envNoText (initState "words")).summary = none ∧
    (summarizeContent envNoText (initState "words")).error = none ∧
    countFetches (summarizeEvents envNoText "words") = 1 ∧
    (getMisinformationFact envNoText (initState "")).misinformationFact = none ∧
    (getMisinformationFact envNoText (initState "")).error = none ∧
    countFetches (factEvents envNoText) = 1 :=
  ⟨rfl, rfl, rfl, rfl, rfl, rfl⟩

/-- C7 (amended): for the plain-text operations any 2xx first response is a
terminal success in one attempt: the result slot receives exactly the (possibly
absent) extracted text, the busy flag clears; summarize leaves the error slot
untouched and fact leaves it cleared - absence of the text field raises no
error. -/
theorem C7_absent_text_success (env : Env) (s : AppState) (status : Nat)
    (body : Json)
    (hin : jsTrim s.inputText ≠ "") (h0 : env 0 = FetchResult.response status body)
    (hok : responseOk status = true) :
    (summarizeContent env s).summary = extractText body ∧
    (summarizeContent env s).error = s.error ∧
    (summarizeContent env s).isSummarizing = false ∧
    countFetches (summarizeEvents env s.inputText) = 1 ∧
    (getMisinformationFact env s).misinformationFact = extractText body ∧
    (getMisinformationFact env s).error = none ∧
    (getMisinformationFact env s).isGettingFact = false ∧
    countFetches (factEvents env) = 1 := by
  have hatt : plainAttemptResult env 0 = some (extractText body) := by
    unfold plainAttemptResult
    rw [h0]
    simp [hok]
  unfold summarizeContent getMisinformationFact summarizeEvents factEvents
  rw [if_neg hin, summarizeMakeApiCall_success env maxRetries 0 (extractText body) hatt,
    factMakeApiCall_success env maxRetries 0 (extractText body) hatt]
  exact ⟨rfl, rfl, rfl, rfl, rfl, rfl, rfl, rfl⟩

/-- C7 witness: a present text field is stored exactly -/
theorem C7_absent_text_success_witness :
    (summarizeContent envOkHi (initState "words")).summary = extractText (wireBody "hi") ∧
    (summarizeContent envOkHi (initState "words")).error = (initState "words").error ∧
    (summarizeContent envOkHi (initState "words")).isSummarizing = false ∧
    countFetches (summarizeEvents envOkHi "words") = 1 ∧
    (getMisinformationFact envOkHi (initState "words")).misinformationFact =
      extractText (wireBody "hi") ∧
    (getMisinformationFact envOkHi (initState "words")).error = none ∧
    (getMisinformationFact envOkHi (initState "words")).isGettingFact = false ∧
    countFetches (factEvents envOkHi) = 1 :=
  C7_absent_text_success envOkHi (initState "words") 200 (wireBody "hi") (by decide) rfl rfl

/-- C4 counterexample: the error slot is shared across coordinators - after a
failed analyze run has stored its error, merely invoking the fact coordinator
(which succeeds) clears that error away, so invoking one coordinator does not
leave the other coordinators' visible state unchanged. -/
theorem C4_counterexample :
    (analyzeContent env500 (initState "check this")).error =
      some "Failed to get a response. Please try again." ∧
    (getMisinformationFact envOkHi (analyzeContent env500 (initState "check this"))).error =
      none :=
  ⟨rfl, rfl⟩

/-- C4 (amended): the three busy flags and the three result slots are private
per coordinator - no invocation of one coordinator ever writes another
coordinator's busy flag or result slot (or the input text) - but the error
slot is a single shared slot which analyze and fact clear on invocation and
every coordinator writes on terminal failure. -/
theorem C4_per_action_frame (env : Env) (s : AppState) :
    (getMisinformationFact env s).inputText = s.inputText ∧
    (getMisinformationFact env s).results = s.results ∧
    (getMisinformationFact env s).loading = s.loading ∧
    (getMisinformationFact env s).summary = s.summary ∧
    (getMisinformationFact env s).isSummarizing = s.isSummarizing ∧
    (summarizeContent env s).inputText = s.inputText ∧
    (summarizeContent env s).results = s.results ∧
    (summarizeContent env s).loading = s.loading ∧
    (summarizeContent env s).misinformationFact = s.misinformationFact ∧
    (summarizeContent env s).isGettingFact = s.isGettingFact ∧
    (analyzeContent env s).inputText = s.inputText ∧
    (analyzeContent env s).summary = s.summary ∧
    (analyzeContent env s).isSummarizing = s.isSummarizing ∧
    (analyzeContent env s).misinformationFact = s.misinformationFact ∧
    (analyzeContent env s).isGettingFact = s.isGettingFact := by
  have hF := factMakeApiCall_frame env (maxRetries + 1) 0
    { s with isGettingFact := true, misinformationFact := none, error := none }
  have hFact : (getMisinformationFact env s).inputText = s.inputText ∧
      (getMisinformationFact env s).results = s.results ∧
      (getMisinformationFact env s).loading = s.loading ∧
      (getMisinformationFact env s).summary = s.summary ∧
      (getMisinformationFact env s).isSummarizing = s.isSummarizing := by
    unfold getMisinformationFact factEvents
    simp only [runEvents, List.foldl_cons] at hF ⊢
    simpa [applyEv] using hF
  by_cases hb : jsTrim s.inputText = ""
  · refine ⟨hFact.1, hFact.2.1, hFact.2.2.1, hFact.2.2.2.1, hFact.2.2.2.2, ?_⟩
    unfold summarizeContent analyzeContent summarizeEvents analyzeEvents
    simp only [if_pos hb]
    exact ⟨rfl, rfl, rfl, rfl, rfl, rfl, rfl, rfl, rfl, rfl⟩
  · have hS := summarizeMakeApiCall_frame env (maxRetries + 1) 0
      { s with isSummarizing := true, summary := none }
    have hA := analyzeMakeApiCall_frame env (maxRetries + 1) 0
      { s with loading := true, results := none, error := none }
    refine ⟨hFact.1, hFact.2.1, hFact.2.2.1, hFact.2.2.2.1, hFact.2.2.2.2, ?_⟩
    unfold summarizeContent analyzeContent summarizeEvents analyzeEvents
    simp only [if_neg hb]
    simp only [runEvents, List.foldl_cons] at hS hA ⊢
    constructor
    · simpa [applyEv] using hS.1
    constructor
    · simpa [applyEv] using hS.2.1
    constructor
    · simpa [applyEv] using hS.2.2.1
    constructor
    · simpa [applyEv] using hS.2.2.2.1
    constructor
    · simpa [applyEv] using hS.2.2.2.2
    constructor
    · simpa [applyEv] using hA.1
    constructor
    · simpa [applyEv] using hA.2.1
    constructor
    · simpa [applyEv] using hA.2.2.1
    constructor
    · simpa [applyEv] using hA.2.2.2.1
    · simpa [applyEv] using hA.2.2.2.2

/-- C5 counterexample: summarize does not clear the prior error before calling
the network, and after its successful completion the (stale) error and the
fresh summary are both non-null - result and error are not mutually exclusive. -/
theorem C5_counterexample :
    (summarizeContent envOkHi
      { initState "some text" with
          error := some "Failed to get a response. Please try again." }).summary =
      some "hi" ∧
    (summarizeContent envOkHi
      { initState "some text" with
          error := some "Failed to get a response. Please try again." }).error =
      some "Failed to get a response. Please try again." :=
  ⟨rfl, rfl⟩

/-- C5 (amended): analyze and fact clear both the prior result and the prior
error before the network call (their outcome is independent of those prior
values) and end with result and error mutually exclusive; summarize clears
only its prior summary, so its result/error exclusivity holds only when the
error slot was already empty at invocation. -/
theorem C5_clearing_and_exclusivity (env : Env) (s : AppState)
    (hin : jsTrim s.inputText ≠ "") :
    ((analyzeContent env s).results = none ∨ (analyzeContent env s).error = none) ∧
    ((getMisinformationFact env s).misinformationFact = none ∨
      (getMisinformationFact env s).error = none) ∧
    (s.error = none →
      ((summarizeContent env s).summary = none ∨ (summarizeContent env s).error = none)) ∧
    analyzeContent env s = analyzeContent env { s with results := none, error := none } ∧
    getMisinformationFact env s =
      getMisinformationFact env { s with misinformationFact := none, error := none } ∧
    summarizeContent env s = summarizeContent env { s with summary := none } := by
  refine ⟨?_, ?_, ?_, ?_, ?_, ?_⟩
  · unfold analyzeContent analyzeEvents
    rw [if_neg hin]
    simp only [runEvents, List.foldl_cons]
    exact analyzeMakeApiCall_excl env (maxRetries + 1) 0 _ rfl rfl
  · unfold getMisinformationFact factEvents
    simp only [runEvents, List.foldl_cons]
    exact factMakeApiCall_excl env (maxRetries + 1) 0 _ rfl rfl
  · intro herr
    unfold summarizeContent summarizeEvents
    rw [if_neg hin]
    simp only [runEvents, List.foldl_cons]
    exact summarizeMakeApiCall_excl env (maxRetries + 1) 0 _ rfl (by simpa [applyEv] using herr)
  · unfold analyzeContent analyzeEvents
    simp only [if_neg hin]
    rfl
  · unfold getMisinformationFact factEvents
    rfl
  · unfold summarizeContent summarizeEvents
    simp only [if_neg hin]
    rfl

/-- C5 witness: exclusivity of result and error for a concrete analyze run -/
theorem C5_clearing_and_exclusivity_witness :
    (analyzeContent envOkHi (initState "words")).results = none ∨
    (analyzeContent envOkHi (initState "words")).error = none :=
  (C5_clearing_and_exclusivity envOkHi (initState "words") (by decide)).1

/-- C8: the backoff delay is the pure function delay(attempt) =
baseDelayMs * 2^attempt with baseDelayMs = 1000; in every analyze trace the
wait before the k-th retry (the k-th recorded sleep, k = i + 1) is delay(k),
and under permanent client failure all three coordinators wait
delay(1) = 2000, delay(2) = 4000 and delay(3) = 8000 ms, so the worst-case
wait before the final attempt is 8000 ms. -/
theorem C8_backoff (env : Env) (s : AppState)
    (hfail : ∀ k, clientFails (env k) = true)
    (hin : jsTrim s.inputText ≠ "") :
    delay 1 = 2000 ∧ delay 2 = 4000 ∧ delay 3 = 8000 ∧
    (∀ a, delay a = 1000 * 2 ^ a) ∧
    (∀ env2 : Env, sleepsOf (analyzeEvents env2 s.inputText) =
      (List.range (countFetches (analyzeEvents env2 s.inputText) - 1)).map
        (fun i => delay (1 + i))) ∧
    sleepsOf (analyzeEvents env s.inputText) = [delay 1, delay 2, delay 3] ∧
    sleepsOf (summarizeEvents env s.inputText) = [delay 1, delay 2, delay 3] ∧
    sleepsOf (factEvents env) = [delay 1, delay 2, delay 3] := by
  refine ⟨rfl, rfl, rfl, fun a => rfl, ?_, ?_, ?_, ?_⟩
  · intro env2
    unfold analyzeEvents
    by_cases hb : jsTrim s.inputText = ""
    · simp [if_pos hb]
    · simp only [if_neg hb, sleepsOf_setLoading, sleepsOf_setResults, sleepsOf_setError,
        countFetches_setLoading, countFetches_setResults, countFetches_setError]
      exact sleepsOf_analyzeMakeApiCall env2 (maxRetries + 1) 0 (by omega)
  · rw [analyzeEvents_eq_reject env s.inputText hfail]
    unfold analyzeEvents
    rw [if_neg hin]
    rfl
  · rw [summarizeEvents_eq_reject env s.inputText hfail]
    unfold summarizeEvents
    rw [if_neg hin]
    rfl
  · rw [factEvents_eq_reject env hfail]
    rfl

/-- C8 witness: permanent HTTP 500, concrete delays of all three coordinators -/
theorem C8_backoff_witness :
    delay 1 = 2000 ∧ delay 2 = 4000 ∧ delay 3 = 8000 ∧
    (∀ a, delay a = 1000 * 2 ^ a) ∧
    (∀ env2 : Env, sleepsOf (analyzeEvents env2 (initState "x").inputText) =
      (List.range (countFetches (analyzeEvents env2 (initState "x").inputText) - 1)).map
        (fun i => delay (1 + i))) ∧
    sleepsOf (analyzeEvents env500 (initState "x").inputText) = [delay 1, delay 2, delay 3] ∧
    sleepsOf (summarizeEvents env500 (initState "x").inputText) = [delay 1, delay 2, delay 3] ∧
    sleepsOf (factEvents env500) = [delay 1, delay 2, delay 3] :=
  C8_backoff env500 (initState "x") (fun _ => rfl) (by decide)
